import Mathlib

/-!
Shallow embedding of the rate limiter (`src/utils/rate_limiter.py`) and the
TTL cache manager (`src/utils/cache.py`) of the youtube-summarizer-agent
repository, with theorems settling the specification claims.

Modelling conventions:
* Clock instants (`time.time()` / `datetime.now()`) are integers (seconds).
  The Python `int(x)` truncation applied to a difference of instants is the
  identity here, since all arithmetic stays in `Int`.
* `self.user_limits` is a `defaultdict(UserRateLimit)`: any read of
  `user_limits[u]` inserts a fresh default record when `u` is absent.  The map
  is an association list; `touchUser` models the defaultdict insertion-on-read,
  `setUser` models in-place mutation of the record obtained by the read.
* Error message strings are modelled by the inductive `Denial`, carrying the
  data interpolated into the Python f-strings.
* `acquire` and `release` are `async`, but neither contains a genuine
  suspension point: `asyncio.Lock.acquire` on an uncontended lock returns
  without yielding to the event loop, and no holder of `concurrent_lock`
  suspends while holding it, so the lock is never contended.  Under asyncio's
  cooperative scheduling each whole call therefore runs atomically, and an
  interleaving of callers is exactly a sequence of atomic `acquire`/`release`
  operations (`Op` / `run` below).
-/

namespace RateLimiter

/-- `UserRateLimit` dataclass: per-user tracking data
(`requests`, `last_request`, `blocked_until`). -/
structure UserRateLimit where
  requests : List Int
  last_request : Int
  blocked_until : Int
deriving Repr, DecidableEq

/-- The dataclass defaults: `requests=[]`, `last_request=0`, `blocked_until=0`;
this is what `defaultdict(UserRateLimit)` inserts on first access. -/
def UserRateLimit.dflt : UserRateLimit := ⟨[], 0, 0⟩

/-- Constructor parameters of `RateLimiter`, fixed at construction. -/
structure Config where
  requests_per_minute : Nat
  requests_per_hour : Nat
  max_concurrent_platform : Int
  cooldown_seconds : Int
  block_duration_seconds : Int
deriving Repr, DecidableEq

/-- The per-user map `self.user_limits`, as an association list
(keys are distinct user ids). -/
def UserMap := List (String × UserRateLimit)

/-- Reading `user_limits[u]`: the stored record, or the default for a
missing key (what the read would insert). -/
def lookupUser (m : UserMap) (u : String) : UserRateLimit :=
  match m with
  | [] => UserRateLimit.dflt
  | (k, v) :: rest => if k = u then v else lookupUser rest u

/-- Membership test on the association list. -/
def findUser (m : UserMap) (u : String) : Option UserRateLimit :=
  match m with
  | [] => none
  | (k, v) :: rest => if k = u then some v else findUser rest u

/-- The defaultdict side effect of reading `user_limits[u]`: inserts the
default record when `u` is absent, otherwise leaves the map unchanged. -/
def touchUser (m : UserMap) (u : String) : UserMap :=
  match findUser m u with
  | some _ => m
  | none => (u, UserRateLimit.dflt) :: m

/-- In-place mutation of the record for `u` (Python mutates the record
object aliased by `limit_data`); inserts when absent. -/
def setUser (m : UserMap) (u : String) (d : UserRateLimit) : UserMap :=
  match m with
  | [] => [(u, d)]
  | (k, v) :: rest => if k = u then (k, d) :: rest else (k, v) :: setUser rest u d

/-- Mutable state of a `RateLimiter` instance: `user_limits` and
`concurrent_queries`. -/
structure State where
  user_limits : UserMap
  concurrent_queries : Int

/-- State after `__init__`: empty user map, zero concurrent queries. -/
def State.start : State := ⟨[], 0⟩

/-- The denial messages of the limiter, with the data each f-string carries. -/
inductive Denial where
  | blocked (seconds_remaining : Int)
  | cooldown (seconds_remaining : Int)
  | rate_minute (limit : Nat)
  | rate_hour (limit : Nat)
  | capacity (max_concurrent : Int)
deriving Repr, DecidableEq

/-- Result of `acquire`. -/
inductive AcquireResult where
  | admitted
  | denied (reason : Denial)
deriving Repr, DecidableEq

/-- `RateLimiter._is_blocked`: reads `user_limits[user_id]` (defaultdict
insertion), returns `(blocked_until > now, remaining)`. -/
def is_blocked (m : UserMap) (u : String) (now : Int) :
    UserMap × Bool × Option Int :=
  let m1 := touchUser m u
  let d := lookupUser m1 u
  if d.blocked_until > now then
    (m1, true, some (d.blocked_until - now))
  else
    (m1, false, none)

/-- `RateLimiter._check_cooldown`: returns immediately (no map access)
when `cooldown_seconds == 0`; otherwise reads `user_limits[user_id]` and
reports a cooldown when the user has `last_request > 0`, a nonempty
`requests` list, and `now - last_request < cooldown_seconds`. -/
def check_cooldown (cfg : Config) (m : UserMap) (u : String) (now : Int) :
    UserMap × Bool × Option Int :=
  if cfg.cooldown_seconds = 0 then
    (m, false, none)
  else
    let m1 := touchUser m u
    let d := lookupUser m1 u
    if d.last_request > 0 ∧ d.requests.length > 0 then
      if now - d.last_request < cfg.cooldown_seconds then
        (m1, true, some (cfg.cooldown_seconds - (now - d.last_request)))
      else
        (m1, false, none)
    else
      (m1, false, none)

/-- `RateLimiter._check_rate_limits`: prunes `requests` to the trailing
hour and writes the pruned list back; then checks the minute count, then
the hour count, with `>=` thresholds; a violation sets
`blocked_until = now + block_duration_seconds`. -/
def check_rate_limits (cfg : Config) (m : UserMap) (u : String) (now : Int) :
    UserMap × Bool × Option Denial :=
  let m1 := touchUser m u
  let d := lookupUser m1 u
  let minute_ago := now - 60
  let hour_ago := now - 3600
  let recent_requests := d.requests.filter (fun t => decide (t > hour_ago))
  let requests_last_minute :=
    (recent_requests.filter (fun t => decide (t > minute_ago))).length
  if requests_last_minute ≥ cfg.requests_per_minute then
    (setUser m1 u { d with requests := recent_requests,
                           blocked_until := now + cfg.block_duration_seconds },
     false, some (.rate_minute cfg.requests_per_minute))
  else if recent_requests.length ≥ cfg.requests_per_hour then
    (setUser m1 u { d with requests := recent_requests,
                           blocked_until := now + cfg.block_duration_seconds },
     false, some (.rate_hour cfg.requests_per_hour))
  else
    (setUser m1 u { d with requests := recent_requests }, true, none)

/-- `RateLimiter.check_platform_capacity`: under the platform lock, denies
when `concurrent_queries >= max_concurrent_platform`. -/
def check_platform_capacity (cfg : Config) (concurrent : Int) :
    Bool × Option Denial :=
  if concurrent ≥ cfg.max_concurrent_platform then
    (false, some (.capacity cfg.max_concurrent_platform))
  else
    (true, none)

/-- `RateLimiter.acquire`: block check, cooldown check, rate check,
platform capacity check; on success increments `concurrent_queries`,
appends `now` to the user's `requests` and sets `last_request = now`. -/
def acquire (cfg : Config) (s : State) (u : String) (now : Int) :
    State × AcquireResult :=
  match is_blocked s.user_limits u now with
  | (m1, true, bt) => ({ s with user_limits := m1 }, .denied (.blocked (bt.getD 0)))
  | (m1, false, _) =>
    match check_cooldown cfg m1 u now with
    | (m2, true, ct) => ({ s with user_limits := m2 }, .denied (.cooldown (ct.getD 0)))
    | (m2, false, _) =>
      match check_rate_limits cfg m2 u now with
      | (m3, false, err) =>
        ({ s with user_limits := m3 },
         .denied (err.getD (.rate_minute cfg.requests_per_minute)))
      | (m3, true, _) =>
        match check_platform_capacity cfg s.concurrent_queries with
        | (false, err) =>
          ({ s with user_limits := m3 },
           .denied (err.getD (.capacity cfg.max_concurrent_platform)))
        | (true, _) =>
          let d := lookupUser m3 u
          let d2 := { d with requests := d.requests ++ [now], last_request := now }
          ({ user_limits := setUser m3 u d2,
             concurrent_queries := s.concurrent_queries + 1 }, .admitted)

/-- `RateLimiter.release`: decrements `concurrent_queries` only when it is
positive. -/
def release (s : State) : State :=
  if s.concurrent_queries > 0 then
    { s with concurrent_queries := s.concurrent_queries - 1 }
  else
    s

/-- Return value of `get_user_stats`. -/
structure UserStats where
  requests_last_minute : Nat
  requests_last_hour : Nat
  remaining_minute : Int
  remaining_hour : Int
  is_blocked : Bool
  block_seconds_remaining : Option Int
  in_cooldown : Bool
  cooldown_seconds_remaining : Option Int
deriving Repr, DecidableEq

/-- `RateLimiter.get_user_stats`: reads `user_limits[user_id]` (defaultdict
insertion), computes the trailing-window counts without writing them back,
and consults `_is_blocked` and `_check_cooldown`. -/
def get_user_stats (cfg : Config) (s : State) (u : String) (now : Int) :
    State × UserStats :=
  let m1 := touchUser s.user_limits u
  let d := lookupUser m1 u
  let minute_ago := now - 60
  let hour_ago := now - 3600
  let recent_requests := d.requests.filter (fun t => decide (t > hour_ago))
  let requests_last_minute :=
    (recent_requests.filter (fun t => decide (t > minute_ago))).length
  match is_blocked m1 u now with
  | (m2, blk, bt) =>
    match check_cooldown cfg m2 u now with
    | (m3, cd, ct) =>
      ({ s with user_limits := m3 },
       { requests_last_minute := requests_last_minute,
         requests_last_hour := recent_requests.length,
         remaining_minute :=
           max 0 ((cfg.requests_per_minute : Int) - requests_last_minute),
         remaining_hour :=
           max 0 ((cfg.requests_per_hour : Int) - recent_requests.length),
         is_blocked := blk,
         block_seconds_remaining := bt,
         in_cooldown := cd,
         cooldown_seconds_remaining := ct })

/-- Return value of `get_platform_stats` (`utilization_percent`, a float
percentage derived from the same two integers, is omitted). -/
structure PlatformStats where
  concurrent_queries : Int
  max_concurrent : Int
  available_slots : Int
  active_users : Nat
deriving Repr, DecidableEq

/-- `RateLimiter.get_platform_stats`: reads the platform counters and
`len(self.user_limits)`. -/
def get_platform_stats (cfg : Config) (s : State) : PlatformStats :=
  { concurrent_queries := s.concurrent_queries,
    max_concurrent := cfg.max_concurrent_platform,
    available_slots := max 0 (cfg.max_concurrent_platform - s.concurrent_queries),
    active_users := s.user_limits.length }

/-- One atomic caller operation (see the module comment on atomicity of
`acquire`/`release` under asyncio's cooperative scheduling). -/
inductive Op where
  | acq (u : String) (now : Int)
  | rel
deriving Repr, DecidableEq

/-- The state transition of one operation. -/
def step (cfg : Config) (s : State) (op : Op) : State :=
  match op with
  | .acq u now => (acquire cfg s u now).1
  | .rel => release s

/-- Running a sequence of interleaved caller operations. -/
def run (cfg : Config) (s : State) (ops : List Op) : State :=
  ops.foldl (step cfg) s

end RateLimiter

namespace Cache

/-- The parsed content of one cache file, as written by `CacheManager.set`:
`{video_id, summary, timestamp, metadata}`.  `timestamp` is `some t` when the
stored ISO string parses to the instant `t`, and `none` when the field is
missing or unparseable (`datetime.fromisoformat` raises, so `_is_expired`
reports expired). -/
structure CacheEntry where
  video_id : String
  summary : String
  timestamp : Option Int
  metadata : List (String × String)
deriving Repr, DecidableEq

/-- One on-disk `*.json` file: either malformed serialization (`json.load`
raises) or a parsed record. -/
inductive StoredFile where
  | corrupt
  | record (e : CacheEntry)
deriving Repr, DecidableEq

/-- The cache directory: one file per key.  Keys are the logical video ids;
`_get_cache_key` maps them through SHA-256, an injective renaming on the
(collision-free) key space, so it is modelled as the identity.  Filenames
are distinct, so keys are distinct. -/
def Store := List (String × StoredFile)

/-- File lookup by key. -/
def findFile (store : Store) (k : String) : Option StoredFile :=
  match store with
  | [] => none
  | (k', v) :: rest => if k' = k then some v else findFile rest k

/-- `cache_path.unlink()`: removes the file with key `k`. -/
def eraseFile (store : Store) (k : String) : Store :=
  store.filter (fun p => decide (p.1 ≠ k))

/-- File write: overwrites the record with key `k`, creating it if absent. -/
def setFile (store : Store) (k : String) (f : StoredFile) : Store :=
  match store with
  | [] => [(k, f)]
  | (k', v) :: rest => if k' = k then (k, f) :: rest else (k', v) :: setFile rest k f

/-- `CacheManager._is_expired`: expired iff
`now > cached_time + timedelta(hours=ttl_hours)`; a timestamp that fails to
parse counts as expired. -/
def is_expired (ttl_hours : Int) (timestamp : Option Int) (now : Int) : Bool :=
  match timestamp with
  | none => true
  | some t => decide (now > t + ttl_hours * 3600)

/-- `CacheManager.get`: Miss when absent; delete-and-Miss when the record is
corrupt or expired; otherwise return the full parsed record. -/
def get (ttl_hours : Int) (store : Store) (now : Int) (video_id : String) :
    Store × Option CacheEntry :=
  match findFile store video_id with
  | none => (store, none)
  | some .corrupt => (eraseFile store video_id, none)
  | some (.record e) =>
    if is_expired ttl_hours e.timestamp now then
      (eraseFile store video_id, none)
    else
      (store, some e)

/-- `CacheManager.set` (storage available, so the write succeeds): writes
`{video_id, summary, timestamp: now, metadata: metadata or \x7b\x7d}`. -/
def set (store : Store) (now : Int) (video_id summary : String)
    (metadata : Option (List (String × String))) : Store :=
  setFile store video_id (.record ⟨video_id, summary, some now, metadata.getD []⟩)

/-- Whether `cleanup_expired` (and the `stats` classification) treats a file
as removable: unreadable/corrupt, or expired. -/
def shouldRemove (ttl_hours : Int) (f : StoredFile) (now : Int) : Bool :=
  match f with
  | .corrupt => true
  | .record e => is_expired ttl_hours e.timestamp now

/-- `CacheManager.cleanup_expired`: deletes every expired or corrupt file and
returns the number removed. -/
def cleanup_expired (ttl_hours : Int) (store : Store) (now : Int) :
    Store × Nat :=
  (store.filter (fun p => !(shouldRemove ttl_hours p.2 now)),
   (store.filter (fun p => shouldRemove ttl_hours p.2 now)).length)

/-- Return value of `get_cache_stats` (`total_size_bytes`/`total_size_mb`,
filesystem byte counts, are omitted). -/
structure CacheStats where
  total_entries : Nat
  valid_entries : Nat
  expired_entries : Nat
deriving Repr, DecidableEq

/-- `CacheManager.get_cache_stats`: classifies every file as valid or
expired (corrupt counts as expired) and deletes nothing — the returned store
is the store the scan leaves behind. -/
def get_cache_stats (ttl_hours : Int) (store : Store) (now : Int) :
    Store × CacheStats :=
  (store,
   { total_entries := store.length,
     valid_entries :=
       (store.filter (fun p => !(shouldRemove ttl_hours p.2 now))).length,
     expired_entries :=
       (store.filter (fun p => shouldRemove ttl_hours p.2 now)).length })

end Cache

/-! ### Helper lemmas -/

theorem length_filter_add_length_filter_not {α : Type} (l : List α)
    (p : α → Bool) :
    (l.filter p).length + (l.filter (fun a => !(p a))).length = l.length := by
  induction l with
  | nil => rfl
  | cons a l ih => cases h : p a <;> simp [List.filter_cons, h, ← ih] <;> omega

theorem filter_of_filter_not_eq_nil {α : Type} (l : List α) (p : α → Bool) :
    (l.filter (fun a => !(p a))).filter p = [] := by
  induction l with
  | nil => rfl
  | cons a l ih => cases h : p a <;> simp [List.filter_cons, h, ih]

namespace RateLimiter

theorem lookupUser_eq_getD (m : UserMap) (u : String) :
    lookupUser m u = (findUser m u).getD UserRateLimit.dflt := by
  induction m with
  | nil => rfl
  | cons p rest ih =>
    obtain ⟨k, v⟩ := p
    by_cases h : k = u <;> simp [lookupUser, findUser, h, ih]

theorem findUser_touchUser (m : UserMap) (u : String) :
    findUser (touchUser m u) u = some (lookupUser m u) := by
  rw [lookupUser_eq_getD]
  unfold touchUser
  cases h : findUser m u with
  | none => simp [findUser, h]
  | some v => simp [h]

theorem lookupUser_touchUser (m : UserMap) (u : String) :
    lookupUser (touchUser m u) u = lookupUser m u := by
  rw [lookupUser_eq_getD, findUser_touchUser]
  rfl

theorem findUser_setUser (m : UserMap) (u : String) (d : UserRateLimit) :
    findUser (setUser m u d) u = some d := by
  induction m with
  | nil => simp [setUser, findUser]
  | cons p rest ih =>
    obtain ⟨k, v⟩ := p
    by_cases h : k = u <;> simp [setUser, findUser, h, ih]

theorem lookupUser_setUser (m : UserMap) (u : String) (d : UserRateLimit) :
    lookupUser (setUser m u d) u = d := by
  rw [lookupUser_eq_getD, findUser_setUser]
  rfl

theorem touchUser_length_of_fresh (m : UserMap) (u : String)
    (h : findUser m u = none) : (touchUser m u).length = m.length + 1 := by
  unfold touchUser
  rw [h]
  rfl

/-- The one-minute window is contained in the one-hour window, so pruning to
the hour first does not change the minute count. -/
theorem filter_minute_of_filter_hour (l : List Int) (now : Int) :
    (l.filter (fun t => decide (t > now - 3600))).filter
        (fun t => decide (t > now - 60)) =
      l.filter (fun t => decide (t > now - 60)) := by
  induction l with
  | nil => rfl
  | cons a l ih =>
    by_cases h : a > now - 60
    · have h2 : a > now - 3600 := by omega
      simp [List.filter_cons, h, h2, ih]
    · by_cases h2 : a > now - 3600 <;> simp [List.filter_cons, h, h2, ih]

/-- Effect of `acquire` on the platform counter: either some check denied and
the counter is untouched, or the call was admitted, which requires the
counter to have been below the cap and increments it by one. -/
theorem acquire_concurrent_cases (cfg : Config) (s : State) (u : String)
    (now : Int) :
    ((acquire cfg s u now).2 = .admitted ∧
      s.concurrent_queries < cfg.max_concurrent_platform ∧
      (acquire cfg s u now).1.concurrent_queries = s.concurrent_queries + 1) ∨
    ((acquire cfg s u now).2 ≠ .admitted ∧
      (acquire cfg s u now).1.concurrent_queries = s.concurrent_queries) := by
  unfold acquire
  split
  · right; simp
  · split
    · right; simp
    · split
      · right; simp
      · split
        · right; simp
        · next heq =>
            left
            refine ⟨rfl, ?_, rfl⟩
            unfold check_platform_capacity at heq
            by_cases hc : s.concurrent_queries ≥ cfg.max_concurrent_platform
            · simp [hc] at heq
            · omega

theorem is_blocked_map (m : UserMap) (u : String) (now : Int) :
    (is_blocked m u now).1 = touchUser m u := by
  simp only [is_blocked]
  split <;> rfl

theorem check_cooldown_map (cfg : Config) (m : UserMap) (u : String)
    (now : Int) :
    (check_cooldown cfg m u now).1 = m ∨
    (check_cooldown cfg m u now).1 = touchUser m u := by
  simp only [check_cooldown]
  split
  · left; rfl
  · right
    split
    · split <;> rfl
    · rfl

theorem check_rate_limits_map (cfg : Config) (m : UserMap) (u : String)
    (now : Int) :
    ∃ d, (check_rate_limits cfg m u now).1 = setUser (touchUser m u) u d := by
  simp only [check_rate_limits]
  split
  · exact ⟨_, rfl⟩
  · split
    · exact ⟨_, rfl⟩
    · exact ⟨_, rfl⟩

theorem findUser_isSome_touchUser (m : UserMap) (u : String) :
    (findUser (touchUser m u) u).isSome = true := by
  rw [findUser_touchUser]
  rfl

theorem findUser_isSome_of_cooldown_map (cfg : Config) (m : UserMap)
    (u : String) (now : Int) (h : (findUser m u).isSome = true) :
    (findUser (check_cooldown cfg m u now).1 u).isSome = true := by
  rcases check_cooldown_map cfg m u now with hm | hm <;> rw [hm]
  · exact h
  · exact findUser_isSome_touchUser m u

/-- Every code path of `acquire` has read `user_limits[u]` (the block check
does so first), so the user's record exists afterwards. -/
theorem acquire_findUser_isSome (cfg : Config) (s : State) (u : String)
    (now : Int) :
    (findUser (acquire cfg s u now).1.user_limits u).isSome = true := by
  unfold acquire
  split
  · next m1 bt heq =>
      have h1 : m1 = touchUser s.user_limits u := by
        have h := congrArg Prod.fst heq
        rw [is_blocked_map] at h
        exact h.symm
      subst h1
      simpa using findUser_isSome_touchUser s.user_limits u
  · next m1 w heq =>
      have h1 : m1 = touchUser s.user_limits u := by
        have h := congrArg Prod.fst heq
        rw [is_blocked_map] at h
        exact h.symm
      have hm1 : (findUser m1 u).isSome = true := by
        rw [h1]
        exact findUser_isSome_touchUser s.user_limits u
      have hm3 : ∀ m3 b3 e3,
          check_rate_limits cfg (check_cooldown cfg m1 u now).1 u now =
            (m3, b3, e3) →
          (findUser m3 u).isSome = true := by
        intro m3 b3 e3 heq3
        have h3 : (check_rate_limits cfg (check_cooldown cfg m1 u now).1 u now).1
            = m3 := congrArg Prod.fst heq3
        obtain ⟨d, hd⟩ := check_rate_limits_map cfg (check_cooldown cfg m1 u now).1 u now
        rw [hd] at h3
        simp [← h3, findUser_setUser]
      split
      · next m2 ct heq2 =>
          have h2 : (check_cooldown cfg m1 u now).1 = m2 := congrArg Prod.fst heq2
          have := findUser_isSome_of_cooldown_map cfg m1 u now hm1
          rw [h2] at this
          simpa using this
      · next m2 w2 heq2 =>
          have h2 : (check_cooldown cfg m1 u now).1 = m2 := congrArg Prod.fst heq2
          rw [h2] at hm3
          split
          · next m3 err heq3 =>
              simpa using hm3 m3 false err heq3
          · next m3 w3 heq3 =>
              split
              · next err heq4 =>
                  simpa using hm3 m3 true w3 heq3
              · next w4 heq4 =>
                  simp [findUser_setUser]

end RateLimiter

namespace Cache

theorem findFile_setFile (store : Store) (k : String) (f : StoredFile) :
    findFile (setFile store k f) k = some f := by
  induction store with
  | nil => simp [setFile, findFile]
  | cons p rest ih =>
    obtain ⟨k', v⟩ := p
    by_cases h : k' = k <;> simp [setFile, findFile, h, ih]

end Cache

/-! ### Claim theorems: cache manager -/

namespace Cache

/-- C3: `get` never returns an entry whose `createdAt + ttl` lies in the
past: a
missing file is a Miss, a corrupt or expired record is deleted and is a
Miss, an unexpired record is returned in full, and an entry written at `t0`
is returned at any instant `≤ t0 + ttl` and is a Miss (the record deleted)
at any later instant. -/
theorem get_never_returns_expired (ttl : Int) (store : Store) (now : Int)
    (vid : String) (t0 : Int) (summary : String)
    (md : Option (List (String × String))) :
    (∀ e, (Cache.get ttl store now vid).2 = some e →
       ∃ t, e.timestamp = some t ∧ ¬ now > t + ttl * 3600) ∧
    (findFile store vid = some .corrupt →
       Cache.get ttl store now vid = (eraseFile store vid, none)) ∧
    (∀ e, findFile store vid = some (.record e) →
       is_expired ttl e.timestamp now = true →
       Cache.get ttl store now vid = (eraseFile store vid, none)) ∧
    (∀ e, findFile store vid = some (.record e) →
       is_expired ttl e.timestamp now = false →
       Cache.get ttl store now vid = (store, some e)) ∧
    (∀ t1 : Int,
       (Cache.get ttl (Cache.set store t0 vid summary md) t1 vid).2 =
         if t1 ≤ t0 + ttl * 3600 then
           some ⟨vid, summary, some t0, md.getD []⟩
         else none) := by
  refine ⟨?_, ?_, ?_, ?_, ?_⟩
  · intro e he
    unfold get at he
    cases hf : findFile store vid with
    | none => rw [hf] at he; simp at he
    | some f =>
      cases f with
      | corrupt => rw [hf] at he; simp at he
      | record e2 =>
        rw [hf] at he
        cases hexp : is_expired ttl e2.timestamp now with
        | true => simp [hexp] at he
        | false =>
          simp [hexp] at he
          subst he
          cases ht : e2.timestamp with
          | none => rw [ht] at hexp; simp [is_expired] at hexp
          | some t =>
            refine ⟨t, rfl, ?_⟩
            rw [ht] at hexp
            simpa [is_expired] using hexp
  · intro hf
    unfold get
    rw [hf]
  · intro e hf hexp
    unfold get
    rw [hf]
    simp [hexp]
  · intro e hf hexp
    unfold get
    rw [hf]
    simp [hexp]
  · intro t1
    unfold get set
    rw [findFile_setFile]
    by_cases h : t1 ≤ t0 + ttl * 3600
    · have hexp : is_expired ttl (some t0) t1 = false := by
        simp [is_expired]
        omega
      simp [hexp, if_pos h]
    · have hexp : is_expired ttl (some t0) t1 = true := by
        simp [is_expired]
        omega
      simp [hexp, if_neg h]

/-- Witness for C3 at a concrete store. -/
theorem get_never_returns_expired_witness :
    Cache.get 168 [("v", .record ⟨"v", "s", some 50, []⟩)] 100 "v" =
      ([("v", .record ⟨"v", "s", some 50, []⟩)], some ⟨"v", "s", some 50, []⟩) :=
  (get_never_returns_expired 168 [("v", .record ⟨"v", "s", some 50, []⟩)]
      100 "v" 0 "" none).2.2.2.1 ⟨"v", "s", some 50, []⟩ (by decide) (by decide)

/-- C5: `set(k, v, m)` followed immediately by `get(k)` (no time elapsed,
storage available, nonnegative TTL) returns the stored payload with
matching metadata, absent metadata stored as the empty map. -/
theorem set_get_roundtrip (ttl : Int) (store : Store) (now : Int)
    (vid summary : String) (md : Option (List (String × String)))
    (httl : 0 ≤ ttl) :
    (Cache.get ttl (Cache.set store now vid summary md) now vid).2 =
      some ⟨vid, summary, some now, md.getD []⟩ := by
  unfold get set
  rw [findFile_setFile]
  have hexp : is_expired ttl (some now) now = false := by
    simp [is_expired]
    omega
  simp [hexp]

/-- Witness for C5. -/
theorem set_get_roundtrip_witness :
    (0 : Int) ≤ 168 ∧
    (Cache.get 168 (Cache.set [] 100 "v" "sum" (some [("url", "u")])) 100
        "v").2 = some ⟨"v", "sum", some 100, [("url", "u")]⟩ :=
  ⟨by decide,
   set_get_roundtrip 168 [] 100 "v" "sum" (some [("url", "u")]) (by decide)⟩

/-- C8: `cleanup_expired` keeps exactly the records that are neither
expired nor corrupt, the count it returns is exactly the number of records
removed, and an immediate second call (no time elapsed, no intervening
`set`) returns 0. -/
theorem cleanup_expired_exact_and_idempotent (ttl : Int) (store : Store)
    (now : Int) :
    (cleanup_expired ttl store now).1 =
      store.filter (fun p => !(shouldRemove ttl p.2 now)) ∧
    (cleanup_expired ttl store now).2 +
        ((cleanup_expired ttl store now).1).length = store.length ∧
    (cleanup_expired ttl (cleanup_expired ttl store now).1 now).2 = 0 := by
  refine ⟨rfl, ?_, ?_⟩
  · exact length_filter_add_length_filter_not store
      (fun p => shouldRemove ttl p.2 now)
  · show (((store.filter fun p => !(shouldRemove ttl p.2 now)).filter
        fun p => shouldRemove ttl p.2 now)).length = 0
    rw [filter_of_filter_not_eq_nil store (fun p => shouldRemove ttl p.2 now)]
    rfl

/-- C9: the diagnostic scan `get_cache_stats` leaves the store untouched —
even for entries it classifies as expired or corrupt — and its counts
satisfy `total_entries = valid_entries + expired_entries`, corrupt entries
counted as expired. -/
theorem stats_read_only_and_counts_partition (ttl : Int) (store : Store)
    (now : Int) :
    (get_cache_stats ttl store now).1 = store ∧
    (get_cache_stats ttl store now).2.total_entries =
      (get_cache_stats ttl store now).2.valid_entries +
        (get_cache_stats ttl store now).2.expired_entries := by
  refine ⟨rfl, ?_⟩
  have h := length_filter_add_length_filter_not store
    (fun p => shouldRemove ttl p.2 now)
  simp only [get_cache_stats]
  omega

end Cache

/-! ### Claim theorems: rate limiter -/

namespace RateLimiter

theorem touchUser_idem (m : UserMap) (u : String) :
    touchUser (touchUser m u) u = touchUser m u := by
  unfold touchUser
  cases h : findUser m u with
  | some v => simp [h]
  | none => simp [findUser, h]

theorem is_blocked_not_blocked (m : UserMap) (u : String) (now : Int)
    (h : (lookupUser m u).blocked_until ≤ now) :
    is_blocked m u now = (touchUser m u, false, none) := by
  simp only [is_blocked, lookupUser_touchUser]
  rw [if_neg (by omega)]

theorem check_cooldown_zero (cfg : Config) (m : UserMap) (u : String)
    (now : Int) (h : cfg.cooldown_seconds = 0) :
    check_cooldown cfg m u now = (m, false, none) := by
  simp only [check_cooldown]
  rw [if_pos h]

theorem check_cooldown_deny (cfg : Config) (m : UserMap) (u : String)
    (now : Int) (h0 : cfg.cooldown_seconds ≠ 0)
    (h1 : (lookupUser m u).last_request > 0)
    (h2 : (lookupUser m u).requests.length > 0)
    (h3 : now - (lookupUser m u).last_request < cfg.cooldown_seconds) :
    check_cooldown cfg m u now =
      (touchUser m u, true,
       some (cfg.cooldown_seconds - (now - (lookupUser m u).last_request))) := by
  simp only [check_cooldown, lookupUser_touchUser]
  rw [if_neg h0, if_pos ⟨h1, h2⟩, if_pos h3]

theorem check_cooldown_allows (cfg : Config) (m : UserMap) (u : String)
    (now : Int)
    (h : cfg.cooldown_seconds = 0 ∨
      ¬((lookupUser m u).last_request > 0 ∧
        (lookupUser m u).requests.length > 0 ∧
        now - (lookupUser m u).last_request < cfg.cooldown_seconds)) :
    check_cooldown cfg m u now = (m, false, none) ∨
    check_cooldown cfg m u now = (touchUser m u, false, none) := by
  by_cases h0 : cfg.cooldown_seconds = 0
  · left
    exact check_cooldown_zero cfg m u now h0
  · right
    rcases h with h | h
    · exact absurd h h0
    · simp only [check_cooldown, lookupUser_touchUser]
      rw [if_neg h0]
      by_cases h1 : (lookupUser m u).last_request > 0 ∧
          (lookupUser m u).requests.length > 0
      · rw [if_pos h1, if_neg (fun hc => h ⟨h1.1, h1.2, hc⟩)]
      · rw [if_neg h1]

theorem check_rate_limits_denies_minute (cfg : Config) (m : UserMap)
    (u : String) (now : Int)
    (hmin : ((lookupUser m u).requests.filter
        (fun t => decide (t > now - 60))).length ≥ cfg.requests_per_minute) :
    check_rate_limits cfg m u now =
      (setUser (touchUser m u) u
        { lookupUser m u with
            requests :=
              (lookupUser m u).requests.filter (fun t => decide (t > now - 3600)),
            blocked_until := now + cfg.block_duration_seconds },
       false, some (.rate_minute cfg.requests_per_minute)) := by
  simp only [check_rate_limits, lookupUser_touchUser,
    filter_minute_of_filter_hour]
  rw [if_pos hmin]

theorem check_rate_limits_denies_hour (cfg : Config) (m : UserMap)
    (u : String) (now : Int)
    (hmin : ((lookupUser m u).requests.filter
        (fun t => decide (t > now - 60))).length < cfg.requests_per_minute)
    (hhour : ((lookupUser m u).requests.filter
        (fun t => decide (t > now - 3600))).length ≥ cfg.requests_per_hour) :
    check_rate_limits cfg m u now =
      (setUser (touchUser m u) u
        { lookupUser m u with
            requests :=
              (lookupUser m u).requests.filter (fun t => decide (t > now - 3600)),
            blocked_until := now + cfg.block_duration_seconds },
       false, some (.rate_hour cfg.requests_per_hour)) := by
  simp only [check_rate_limits, lookupUser_touchUser,
    filter_minute_of_filter_hour]
  rw [if_neg (by omega), if_pos hhour]

theorem check_rate_limits_allows (cfg : Config) (m : UserMap) (u : String)
    (now : Int)
    (hmin : ((lookupUser m u).requests.filter
        (fun t => decide (t > now - 60))).length < cfg.requests_per_minute)
    (hhour : ((lookupUser m u).requests.filter
        (fun t => decide (t > now - 3600))).length < cfg.requests_per_hour) :
    check_rate_limits cfg m u now =
      (setUser (touchUser m u) u
        { lookupUser m u with
            requests :=
              (lookupUser m u).requests.filter (fun t => decide (t > now - 3600)) },
       true, none) := by
  simp only [check_rate_limits, lookupUser_touchUser,
    filter_minute_of_filter_hour]
  rw [if_neg (by omega), if_neg (by omega)]

theorem step_preserves_bounds (cfg : Config) (s : State) (op : Op)
    (h0 : 0 ≤ s.concurrent_queries)
    (h1 : s.concurrent_queries ≤ cfg.max_concurrent_platform) :
    0 ≤ (step cfg s op).concurrent_queries ∧
    (step cfg s op).concurrent_queries ≤ cfg.max_concurrent_platform := by
  cases op with
  | acq u now =>
    rcases acquire_concurrent_cases cfg s u now with ⟨_, hlt, heq⟩ | ⟨_, heq⟩ <;>
      simp only [step, heq] <;> constructor <;> omega
  | rel =>
    simp only [step, release]
    split
    · constructor
      · show 0 ≤ s.concurrent_queries - 1
        omega
      · show s.concurrent_queries - 1 ≤ cfg.max_concurrent_platform
        omega
    · exact ⟨h0, h1⟩

theorem run_preserves_bounds (cfg : Config) (ops : List Op) (s : State)
    (h0 : 0 ≤ s.concurrent_queries)
    (h1 : s.concurrent_queries ≤ cfg.max_concurrent_platform) :
    0 ≤ (run cfg s ops).concurrent_queries ∧
    (run cfg s ops).concurrent_queries ≤ cfg.max_concurrent_platform := by
  induction ops generalizing s with
  | nil => exact ⟨h0, h1⟩
  | cons op ops ih =>
    have h := step_preserves_bounds cfg s op h0 h1
    exact ih (step cfg s op) h.1 h.2

end RateLimiter

namespace RateLimiter

/-- C1: over every sequence of atomic `acquire`/`release` operations (the
possible interleavings of callers under asyncio's cooperative scheduling,
see the module comment), `concurrent_queries` stays within
`[0, max_concurrent_platform]`, and a `release` immediately following a
successful `acquire` restores `concurrent_queries` to its pre-acquire
value. -/
theorem concurrent_invariant_and_release_restores (cfg : Config)
    (hmax : 0 ≤ cfg.max_concurrent_platform) (ops : List Op) :
    (0 ≤ (run cfg State.start ops).concurrent_queries ∧
      (run cfg State.start ops).concurrent_queries ≤
        cfg.max_concurrent_platform) ∧
    (∀ (u : String) (now : Int),
      (acquire cfg (run cfg State.start ops) u now).2 = .admitted →
      (release (acquire cfg (run cfg State.start ops) u now).1).concurrent_queries
        = (run cfg State.start ops).concurrent_queries) := by
  have hrun := run_preserves_bounds cfg ops State.start (by exact le_refl 0)
    (by simpa [State.start] using hmax)
  refine ⟨hrun, ?_⟩
  intro u now hadm
  rcases acquire_concurrent_cases cfg (run cfg State.start ops) u now with
    ⟨_, hlt, heq⟩ | ⟨hne, _⟩
  · have h0 := hrun.1
    simp only [release, heq]
    rw [if_pos (by omega :
      (run cfg State.start ops).concurrent_queries + 1 > 0)]
    show (run cfg State.start ops).concurrent_queries + 1 - 1 =
      (run cfg State.start ops).concurrent_queries
    omega
  · exact absurd hadm hne

/-- Witness for C1 at a concrete configuration and operation sequence. -/
theorem concurrent_invariant_and_release_restores_witness :
    (0 : Int) ≤ (⟨5, 50, 200, 0, 300⟩ : Config).max_concurrent_platform ∧
    ((0 ≤ (run ⟨5, 50, 200, 0, 300⟩ State.start
        [.acq "a" 100, .rel]).concurrent_queries ∧
      (run ⟨5, 50, 200, 0, 300⟩ State.start
        [.acq "a" 100, .rel]).concurrent_queries ≤
        (⟨5, 50, 200, 0, 300⟩ : Config).max_concurrent_platform) ∧
     (∀ (u : String) (now : Int),
       (acquire ⟨5, 50, 200, 0, 300⟩
         (run ⟨5, 50, 200, 0, 300⟩ State.start [.acq "a" 100, .rel]) u
         now).2 = .admitted →
       (release (acquire ⟨5, 50, 200, 0, 300⟩
         (run ⟨5, 50, 200, 0, 300⟩ State.start [.acq "a" 100, .rel]) u
         now).1).concurrent_queries =
         (run ⟨5, 50, 200, 0, 300⟩ State.start
           [.acq "a" 100, .rel]).concurrent_queries)) :=
  ⟨by decide,
   concurrent_invariant_and_release_restores ⟨5, 50, 200, 0, 300⟩ (by decide)
     [.acq "a" 100, .rel]⟩

/-- C2: the rate check prunes to the trailing hour, checks the inclusive
minute threshold first and the inclusive hour threshold second, setting
`blocked_until = now + block_duration_seconds` on either violation; hence
(cooldown disabled, user not blocked) an `acquire` that finds at least
`requests_per_minute` timestamps within the last minute is denied and the
user is blocked for exactly `block_duration_seconds`. -/
theorem rate_check_minute_then_hour_inclusive_and_block (cfg : Config)
    (m : UserMap) (s : State) (u : String) (now : Int) :
    (((lookupUser m u).requests.filter
          (fun t => decide (t > now - 60))).length ≥ cfg.requests_per_minute →
      check_rate_limits cfg m u now =
        (setUser (touchUser m u) u
          { lookupUser m u with
              requests := (lookupUser m u).requests.filter
                (fun t => decide (t > now - 3600)),
              blocked_until := now + cfg.block_duration_seconds },
         false, some (.rate_minute cfg.requests_per_minute))) ∧
    (((lookupUser m u).requests.filter
          (fun t => decide (t > now - 60))).length < cfg.requests_per_minute →
      ((lookupUser m u).requests.filter
          (fun t => decide (t > now - 3600))).length ≥ cfg.requests_per_hour →
      check_rate_limits cfg m u now =
        (setUser (touchUser m u) u
          { lookupUser m u with
              requests := (lookupUser m u).requests.filter
                (fun t => decide (t > now - 3600)),
              blocked_until := now + cfg.block_duration_seconds },
         false, some (.rate_hour cfg.requests_per_hour))) ∧
    (((lookupUser m u).requests.filter
          (fun t => decide (t > now - 60))).length < cfg.requests_per_minute →
      ((lookupUser m u).requests.filter
          (fun t => decide (t > now - 3600))).length < cfg.requests_per_hour →
      check_rate_limits cfg m u now =
        (setUser (touchUser m u) u
          { lookupUser m u with
              requests := (lookupUser m u).requests.filter
                (fun t => decide (t > now - 3600)) },
         true, none)) ∧
    (cfg.cooldown_seconds = 0 →
      (lookupUser s.user_limits u).blocked_until ≤ now →
      ((lookupUser s.user_limits u).requests.filter
          (fun t => decide (t > now - 60))).length ≥ cfg.requests_per_minute →
      (acquire cfg s u now).2 = .denied (.rate_minute cfg.requests_per_minute) ∧
      (lookupUser (acquire cfg s u now).1.user_limits u).blocked_until =
        now + cfg.block_duration_seconds) := by
  refine ⟨check_rate_limits_denies_minute cfg m u now,
    check_rate_limits_denies_hour cfg m u now,
    check_rate_limits_allows cfg m u now, ?_⟩
  intro hcz hnb hmin
  have hb := is_blocked_not_blocked s.user_limits u now hnb
  have hcd := check_cooldown_zero cfg (touchUser s.user_limits u) u now hcz
  have hmin' : ((lookupUser (touchUser s.user_limits u) u).requests.filter
      (fun t => decide (t > now - 60))).length ≥ cfg.requests_per_minute := by
    rw [lookupUser_touchUser]
    exact hmin
  have hr := check_rate_limits_denies_minute cfg (touchUser s.user_limits u)
    u now hmin'
  rw [touchUser_idem, lookupUser_touchUser] at hr
  constructor
  · simp only [acquire, hb, hcd, hr]
    rfl
  · simp only [acquire, hb, hcd, hr]
    rw [lookupUser_setUser]

/-- Witness for C2 at a concrete state: one request 5 seconds old, limit 1
per minute; the next `acquire` is denied and blocks the user until
`now + 300`. -/
theorem rate_check_minute_then_hour_inclusive_and_block_witness :
    ((⟨1, 50, 200, 0, 300⟩ : Config).cooldown_seconds = 0 ∧
     (lookupUser [("u", ⟨[95], 95, 0⟩)] "u").blocked_until ≤ 100 ∧
     ((lookupUser [("u", ⟨[95], 95, 0⟩)] "u").requests.filter
        (fun t => decide (t > 100 - 60))).length ≥
       (⟨1, 50, 200, 0, 300⟩ : Config).requests_per_minute) ∧
    ((acquire ⟨1, 50, 200, 0, 300⟩ ⟨[("u", ⟨[95], 95, 0⟩)], 0⟩ "u" 100).2 =
       .denied (.rate_minute 1) ∧
     (lookupUser (acquire ⟨1, 50, 200, 0, 300⟩ ⟨[("u", ⟨[95], 95, 0⟩)], 0⟩
        "u" 100).1.user_limits "u").blocked_until = 100 + 300) :=
  ⟨⟨by decide, by decide, by decide⟩,
   (rate_check_minute_then_hour_inclusive_and_block ⟨1, 50, 200, 0, 300⟩ []
      ⟨[("u", ⟨[95], 95, 0⟩)], 0⟩ "u" 100).2.2.2 (by decide) (by decide)
      (by decide)⟩

/-- C4: `release` decrements `concurrent_queries` by one when it is
positive, leaves a zero counter at zero (unmatched release), and never
drives a nonnegative counter negative; no error is raised (it is total). -/
theorem release_floors_at_zero (s : State) :
    (0 < s.concurrent_queries →
      (release s).concurrent_queries = s.concurrent_queries - 1) ∧
    (s.concurrent_queries = 0 → release s = s) ∧
    (0 ≤ s.concurrent_queries → 0 ≤ (release s).concurrent_queries) := by
  refine ⟨?_, ?_, ?_⟩
  · intro h
    simp only [release]
    rw [if_pos h]
  · intro h
    simp only [release]
    rw [if_neg (by omega)]
  · intro h
    simp only [release]
    split
    · next hc =>
        show 0 ≤ s.concurrent_queries - 1
        omega
    · exact h

/-- Witness for C4: releasing with one slot held, and with none held. -/
theorem release_floors_at_zero_witness :
    ((0 : Int) < 1 ∧ (release ⟨[], 1⟩).concurrent_queries = 1 - 1) ∧
    ((0 : Int) = 0 ∧ release ⟨[], 0⟩ = ⟨[], 0⟩) :=
  ⟨⟨by decide, (release_floors_at_zero ⟨[], 1⟩).1 (by decide)⟩,
   ⟨rfl, (release_floors_at_zero ⟨[], 0⟩).2.1 rfl⟩⟩

/-- C6: the cooldown check is skipped entirely when `cooldown_seconds = 0`;
otherwise a user with a recorded prior request who calls `acquire` within
the cooldown window (and is not blocked) is denied with the remaining
seconds, after the block check (the block hypothesis is consumed first) and
before the rate check (the resulting state shows no pruning and no
`blocked_until` mutation). -/
theorem cooldown_skip_or_deny (cfg : Config) (m : UserMap) (s : State)
    (u : String) (now : Int) :
    (cfg.cooldown_seconds = 0 → check_cooldown cfg m u now = (m, false, none)) ∧
    (cfg.cooldown_seconds ≠ 0 →
      (lookupUser s.user_limits u).blocked_until ≤ now →
      (lookupUser s.user_limits u).last_request > 0 →
      (lookupUser s.user_limits u).requests.length > 0 →
      now - (lookupUser s.user_limits u).last_request < cfg.cooldown_seconds →
      acquire cfg s u now =
        ({ s with user_limits := touchUser s.user_limits u },
         .denied (.cooldown (cfg.cooldown_seconds -
           (now - (lookupUser s.user_limits u).last_request))))) := by
  refine ⟨check_cooldown_zero cfg m u now, ?_⟩
  intro h0 hnb h1 h2 h3
  have hb := is_blocked_not_blocked s.user_limits u now hnb
  have hcd := check_cooldown_deny cfg (touchUser s.user_limits u) u now h0
    (by rw [lookupUser_touchUser]; exact h1)
    (by rw [lookupUser_touchUser]; exact h2)
    (by rw [lookupUser_touchUser]; exact h3)
  rw [touchUser_idem, lookupUser_touchUser] at hcd
  simp only [acquire, hb, hcd]
  rfl

/-- Witness for C6: cooldown of 30s, last request 5 seconds ago. -/
theorem cooldown_skip_or_deny_witness :
    ((⟨5, 50, 200, 30, 300⟩ : Config).cooldown_seconds ≠ 0 ∧
     (lookupUser [("u", ⟨[95], 95, 0⟩)] "u").blocked_until ≤ 100 ∧
     (lookupUser [("u", ⟨[95], 95, 0⟩)] "u").last_request > 0 ∧
     (lookupUser [("u", ⟨[95], 95, 0⟩)] "u").requests.length > 0 ∧
     100 - (lookupUser [("u", ⟨[95], 95, 0⟩)] "u").last_request <
       (⟨5, 50, 200, 30, 300⟩ : Config).cooldown_seconds) ∧
    acquire ⟨5, 50, 200, 30, 300⟩ ⟨[("u", ⟨[95], 95, 0⟩)], 0⟩ "u" 100 =
      (⟨touchUser [("u", ⟨[95], 95, 0⟩)] "u", 0⟩,
       .denied (.cooldown (30 - (100 - 95)))) :=
  ⟨⟨by decide, by decide, by decide, by decide, by decide⟩,
   (cooldown_skip_or_deny ⟨5, 50, 200, 30, 300⟩ []
      ⟨[("u", ⟨[95], 95, 0⟩)], 0⟩ "u" 100).2 (by decide) (by decide)
      (by decide) (by decide) (by decide)⟩

end RateLimiter

namespace RateLimiter

/-- `get_user_stats` leaves the user map as the defaultdict read left it:
the only mutation is the insertion-on-read of the queried user. -/
theorem get_user_stats_map (cfg : Config) (s : State) (u : String)
    (now : Int) :
    (get_user_stats cfg s u now).1.user_limits = touchUser s.user_limits u := by
  simp only [get_user_stats]
  have h1 : (is_blocked (touchUser s.user_limits u) u now).1 =
      touchUser s.user_limits u := by
    rw [is_blocked_map, touchUser_idem]
  rw [h1]
  rcases check_cooldown_map cfg (touchUser s.user_limits u) u now with hm | hm <;>
    rw [hm]
  rw [touchUser_idem]

/-- C7: when `acquire` is denied by the platform capacity check, the user's
quota record is not penalized: no timestamp is appended (the stored list is
exactly the hour-pruned list, nothing more), `last_request` is unchanged,
`blocked_until` is unchanged, and `concurrent_queries` is unchanged, so the
user may immediately retry. -/
theorem capacity_denial_frame (cfg : Config) (s : State) (u : String)
    (now : Int)
    (hnb : (lookupUser s.user_limits u).blocked_until ≤ now)
    (hcd : cfg.cooldown_seconds = 0 ∨
      ¬((lookupUser s.user_limits u).last_request > 0 ∧
        (lookupUser s.user_limits u).requests.length > 0 ∧
        now - (lookupUser s.user_limits u).last_request < cfg.cooldown_seconds))
    (hmin : ((lookupUser s.user_limits u).requests.filter
        (fun t => decide (t > now - 60))).length < cfg.requests_per_minute)
    (hhour : ((lookupUser s.user_limits u).requests.filter
        (fun t => decide (t > now - 3600))).length < cfg.requests_per_hour)
    (hcap : s.concurrent_queries ≥ cfg.max_concurrent_platform) :
    (acquire cfg s u now).2 = .denied (.capacity cfg.max_concurrent_platform) ∧
    (lookupUser (acquire cfg s u now).1.user_limits u).requests =
      (lookupUser s.user_limits u).requests.filter
        (fun t => decide (t > now - 3600)) ∧
    (lookupUser (acquire cfg s u now).1.user_limits u).last_request =
      (lookupUser s.user_limits u).last_request ∧
    (lookupUser (acquire cfg s u now).1.user_limits u).blocked_until =
      (lookupUser s.user_limits u).blocked_until ∧
    (acquire cfg s u now).1.concurrent_queries = s.concurrent_queries := by
  have hb := is_blocked_not_blocked s.user_limits u now hnb
  have hcd' : check_cooldown cfg (touchUser s.user_limits u) u now =
      (touchUser s.user_limits u, false, none) := by
    have h : cfg.cooldown_seconds = 0 ∨
        ¬((lookupUser (touchUser s.user_limits u) u).last_request > 0 ∧
          (lookupUser (touchUser s.user_limits u) u).requests.length > 0 ∧
          now - (lookupUser (touchUser s.user_limits u) u).last_request <
            cfg.cooldown_seconds) := by
      rw [lookupUser_touchUser]
      exact hcd
    rcases check_cooldown_allows cfg (touchUser s.user_limits u) u now h with
      hc | hc
    · exact hc
    · rw [touchUser_idem] at hc
      exact hc
  have hr := check_rate_limits_allows cfg (touchUser s.user_limits u) u now
    (by rw [lookupUser_touchUser]; exact hmin)
    (by rw [lookupUser_touchUser]; exact hhour)
  rw [touchUser_idem, lookupUser_touchUser] at hr
  have hcap' : check_platform_capacity cfg s.concurrent_queries =
      (false, some (.capacity cfg.max_concurrent_platform)) := by
    simp only [check_platform_capacity]
    rw [if_pos hcap]
  refine ⟨?_, ?_, ?_, ?_, ?_⟩ <;>
    (simp only [acquire, hb, hcd', hr, hcap', lookupUser_setUser]; try rfl)

/-- Witness for C7: platform at capacity (`max_concurrent_platform = 0`),
fresh user, so every user-level check passes and only capacity denies. -/
theorem capacity_denial_frame_witness :
    ((lookupUser [] "u").blocked_until ≤ 100 ∧
     ((⟨5, 50, 0, 0, 300⟩ : Config).cooldown_seconds = 0 ∨
      ¬((lookupUser [] "u").last_request > 0 ∧
        (lookupUser [] "u").requests.length > 0 ∧
        100 - (lookupUser [] "u").last_request <
          (⟨5, 50, 0, 0, 300⟩ : Config).cooldown_seconds)) ∧
     ((lookupUser [] "u").requests.filter
        (fun t => decide (t > 100 - 60))).length <
       (⟨5, 50, 0, 0, 300⟩ : Config).requests_per_minute ∧
     ((lookupUser [] "u").requests.filter
        (fun t => decide (t > 100 - 3600))).length <
       (⟨5, 50, 0, 0, 300⟩ : Config).requests_per_hour ∧
     (0 : Int) ≥ (⟨5, 50, 0, 0, 300⟩ : Config).max_concurrent_platform) ∧
    ((acquire ⟨5, 50, 0, 0, 300⟩ ⟨[], 0⟩ "u" 100).2 =
       .denied (.capacity 0) ∧
     (acquire ⟨5, 50, 0, 0, 300⟩ ⟨[], 0⟩ "u" 100).1.concurrent_queries = 0) :=
  ⟨⟨by decide, Or.inl rfl, by decide, by decide, by decide⟩,
   ⟨(capacity_denial_frame ⟨5, 50, 0, 0, 300⟩ ⟨[], 0⟩ "u" 100 (by decide)
       (Or.inl rfl) (by decide) (by decide) (by decide)).1,
    (capacity_denial_frame ⟨5, 50, 0, 0, 300⟩ ⟨[], 0⟩ "u" 100 (by decide)
       (Or.inl rfl) (by decide) (by decide) (by decide)).2.2.2.2⟩⟩

/-- C10: querying the limiter for a never-seen user creates state for that
user: `get_user_stats` inserts the default (empty) record, which makes
`active_users` in `get_platform_stats` count one more user even though no
request was ever admitted; and an `acquire` denied at any check still
leaves a record for the user in the map. -/
theorem query_creates_user_state (cfg : Config) (s : State) (u : String)
    (now : Int) (h : findUser s.user_limits u = none) :
    findUser (get_user_stats cfg s u now).1.user_limits u =
      some UserRateLimit.dflt ∧
    (get_platform_stats cfg (get_user_stats cfg s u now).1).active_users =
      (get_platform_stats cfg s).active_users + 1 ∧
    (∀ r, (acquire cfg s u now).2 = .denied r →
      (findUser (acquire cfg s u now).1.user_limits u).isSome = true) := by
  refine ⟨?_, ?_, ?_⟩
  · rw [get_user_stats_map]
    unfold touchUser
    rw [h]
    simp [findUser]
  · simp only [get_platform_stats]
    rw [get_user_stats_map, touchUser_length_of_fresh s.user_limits u h]
  · intro r _
    exact acquire_findUser_isSome cfg s u now

/-- Witness for C10: a fresh user on a zero-capacity platform; the stats
query inserts the record and the denied `acquire` leaves one too. -/
theorem query_creates_user_state_witness :
    findUser (State.start).user_limits "u" = none ∧
    (findUser (get_user_stats ⟨5, 50, 0, 0, 300⟩ State.start "u"
        100).1.user_limits "u" = some UserRateLimit.dflt ∧
     (get_platform_stats ⟨5, 50, 0, 0, 300⟩
        (get_user_stats ⟨5, 50, 0, 0, 300⟩ State.start "u" 100).1).active_users =
       (get_platform_stats ⟨5, 50, 0, 0, 300⟩ State.start).active_users + 1 ∧
     (∀ r, (acquire ⟨5, 50, 0, 0, 300⟩ State.start "u" 100).2 = .denied r →
       (findUser (acquire ⟨5, 50, 0, 0, 300⟩ State.start "u"
          100).1.user_limits "u").isSome = true)) :=
  ⟨rfl, query_creates_user_state ⟨5, 50, 0, 0, 300⟩ State.start "u" 100 rfl⟩

end RateLimiter
